import Mathlib

/-!
Verification of the bounded-download core of the khandy repository
(`src/khandy/misc.py`): `download_file` and `download_image`.

The embedding models one call after the HTTP client has produced a
successful response (`requests.get` + `raise_for_status` succeeded):
transport errors are outside the model, as the spec treats them as
propagated from the collaborator.  A response is its two relevant
headers plus the ordered list of body chunks that `iter_content`
would yield; bytes are naturals.  Sizes (`min_filesize`,
`max_filesize`) are naturals, following the spec data model
(`SizeBounds`: non-negative integers).  Python exceptions raised by
the functions are an `Except` error value; `warnings.warn` calls are
collected in an output list.
-/

namespace Khandy

/-- Embeds `DownloadStatusCode` (src/khandy/misc.py): the four enum members. -/
inductive DownloadStatusCode where
  | FILE_SIZE_TOO_LARGE
  | FILE_SIZE_TOO_SMALL
  | FILE_SIZE_IS_ZERO
  | URL_IS_NOT_IMAGE
deriving DecidableEq, Repr

/-- The numeric code of each status, from the enum values in the source. -/
def DownloadStatusCode.code : DownloadStatusCode → Int
  | .FILE_SIZE_TOO_LARGE => -100
  | .FILE_SIZE_TOO_SMALL => -101
  | .FILE_SIZE_IS_ZERO => -102
  | .URL_IS_NOT_IMAGE => -103

/-- The message of each status, from the enum values in the source. -/
def DownloadStatusCode.message : DownloadStatusCode → String
  | .FILE_SIZE_TOO_LARGE => "the size of file from url is too large"
  | .FILE_SIZE_TOO_SMALL => "the size of file from url is too small"
  | .FILE_SIZE_IS_ZERO => "the size of file from url is zero"
  | .URL_IS_NOT_IMAGE => "URL is not an image"

/-- Embeds the `DownloadError` exception: a status code plus the optional
`extra_str` detail string. -/
structure DownloadError where
  status : DownloadStatusCode
  extra : Option String
deriving DecidableEq, Repr

/-- `DownloadError.code` as computed in `DownloadError.__init__`. -/
def DownloadError.code (e : DownloadError) : Int := e.status.code

/-- `DownloadError.message` as computed in `DownloadError.__init__`:
the status message, with `": " ++ extra` appended when `extra_str` is given. -/
def DownloadError.message (e : DownloadError) : String :=
  match e.extra with
  | none => e.status.message
  | some s => e.status.message ++ ": " ++ s

/-- Any Python exception the two functions can raise themselves:
a classified `DownloadError`, or the `ValueError` that the builtin
`int(...)` raises on a malformed `Content-Length` string. -/
inductive PyError where
  | downloadError (e : DownloadError)
  | valueError
deriving DecidableEq, Repr

/-- An HTTP response as the two functions observe it: the two headers they
read (absent or a raw string) and the body chunks `iter_content` yields,
in arrival order. -/
structure HttpResponse where
  contentType : Option String
  contentLength : Option String
  chunks : List (List Nat)
deriving DecidableEq, Repr

/-- Parses the digits of a decimal literal after its first digit,
accepting a single underscore between two digits (CPython grammar). -/
def parseDigitsAux : List Char → Nat → Option Nat
  | [], acc => some acc
  | '_' :: c :: rest, acc =>
      if c.isDigit then parseDigitsAux rest (acc * 10 + (c.toNat - '0'.toNat))
      else none
  | c :: rest, acc =>
      if c.isDigit then parseDigitsAux rest (acc * 10 + (c.toNat - '0'.toNat))
      else none

/-- Parses a nonempty unsigned decimal literal (first char must be a digit). -/
def parseDigits : List Char → Option Nat
  | [] => none
  | c :: rest =>
      if c.isDigit then parseDigitsAux rest (c.toNat - '0'.toNat)
      else none

/-- Models the CPython builtin `int` applied to a decimal string, as used on
the `Content-Length` header: surrounding whitespace is stripped, an optional
sign precedes the digits, digits may be separated by single underscores;
`none` models the `ValueError` raised on any other input. -/
def pyInt (s : String) : Option Int :=
  let cs := ((s.data.dropWhile Char.isWhitespace).reverse.dropWhile
    Char.isWhitespace).reverse
  match cs with
  | '+' :: rest => (parseDigits rest).map (fun n => (n : Int))
  | '-' :: rest => (parseDigits rest).map (fun n => -(n : Int))
  | rest => (parseDigits rest).map (fun n => (n : Int))

/-- Embeds the chunk loop of both functions:
`for chunk in response.iter_content(...): chunks.append(chunk);
filesize += len(chunk); if filesize > max_filesize: raise FILE_SIZE_TOO_LARGE`.
Returns the final `filesize` and accumulated chunk list, or the abort error. -/
def accumulateChunks (maxFilesize : Nat) :
    List (List Nat) → Nat → List (List Nat) →
    Except DownloadError (Nat × List (List Nat))
  | [], filesize, acc => .ok (filesize, acc)
  | chunk :: rest, filesize, acc =>
      let filesize := filesize + chunk.length
      let acc := acc ++ [chunk]
      if filesize > maxFilesize then
        .error ⟨.FILE_SIZE_TOO_LARGE, none⟩
      else
        accumulateChunks maxFilesize rest filesize acc

/-- Models Python `s.startswith(p)` for one candidate: `p` is a prefix of
`s`, character by character.  The source's tuple form
`startswith((a, b))` is the disjunction of the two single-candidate
tests. -/
def pyStartswith (s p : String) : Bool :=
  p.data.isPrefixOf s.data

/-- Embeds `b''.join(chunks)`: concatenation of the chunks in order. -/
def joinBytes : List (List Nat) → List Nat
  | [] => []
  | chunk :: rest => chunk ++ joinBytes rest

/-- Embeds the body-streaming stage shared verbatim by both functions:
the chunk loop, then `if filesize < min_filesize: raise FILE_SIZE_TOO_SMALL`,
then `b''.join(chunks)`. -/
def bodyPhase (minFilesize maxFilesize : Nat) (chunks : List (List Nat)) :
    Except PyError (List Nat) :=
  match accumulateChunks maxFilesize chunks 0 [] with
  | .error e => .error (.downloadError e)
  | .ok (filesize, cs) =>
      if filesize < minFilesize then
        .error (.downloadError ⟨.FILE_SIZE_TOO_SMALL, none⟩)
      else
        .ok (joinBytes cs)

/-- Embeds the `Content-Length` stage shared verbatim by both functions,
followed by the body stage.  Absent header: warn and continue.  Present:
`int(...)` (ValueError on malformed input), then the too-large and
too-small pre-checks, in that order.  The second component collects the
`warnings.warn` messages emitted. -/
def contentLengthPhase (minFilesize maxFilesize : Nat) (resp : HttpResponse) :
    Except PyError (List Nat) × List String :=
  match resp.contentLength with
  | none =>
      (bodyPhase minFilesize maxFilesize resp.chunks, ["No Content-Length!"])
  | some s =>
      match pyInt s with
      | none => (.error .valueError, [])
      | some n =>
          if n > (maxFilesize : Int) then
            (.error (.downloadError ⟨.FILE_SIZE_TOO_LARGE, none⟩), [])
          else if n < (minFilesize : Int) then
            (.error (.downloadError ⟨.FILE_SIZE_TOO_SMALL, none⟩), [])
          else
            (bodyPhase minFilesize maxFilesize resp.chunks, [])

/-- Embeds `download_file(url, min_filesize, max_filesize, ...)` from the
point where the response is available: the content-length stage then the
body stage (no content-type handling exists in this function). -/
def downloadFile (minFilesize maxFilesize : Nat) (resp : HttpResponse) :
    Except PyError (List Nat) × List String :=
  contentLengthPhase minFilesize maxFilesize resp

/-- Embeds `download_image(image_url, min_filesize, max_filesize, ...)` from
the point where the response is available: first the `Content-Type` check
(absent: warn and continue; present but not starting with `image/` or
`application/octet-stream`: raise `URL_IS_NOT_IMAGE`), then exactly the
stages of `download_file`. -/
def downloadImage (minFilesize maxFilesize : Nat) (resp : HttpResponse) :
    Except PyError (List Nat) × List String :=
  match resp.contentType with
  | none =>
      let res := contentLengthPhase minFilesize maxFilesize resp
      (res.fst, "No Content-Type!" :: res.snd)
  | some ct =>
      if pyStartswith ct "image/"
          || pyStartswith ct "application/octet-stream" then
        contentLengthPhase minFilesize maxFilesize resp
      else
        (.error (.downloadError ⟨.URL_IS_NOT_IMAGE, none⟩), [])

/-- Total byte count of a chunk sequence. -/
def chunkTotal (chunks : List (List Nat)) : Nat :=
  (chunks.map List.length).sum

/-- The `Content-Length` pre-checks pass: header absent, or it parses to an
integer within the envelope, so control reaches the body stage. -/
def passesLengthCheck (minFilesize maxFilesize : Nat) (cl : Option String) :
    Bool :=
  match cl with
  | none => true
  | some s =>
      match pyInt s with
      | none => false
      | some n => !(n > (maxFilesize : Int)) && !(n < (minFilesize : Int))

/-- The `Content-Type` check of `download_image` passes: header absent, or
it starts with one of the two accepted prefixes. -/
def passesImageTypeCheck (ct : Option String) : Bool :=
  match ct with
  | none => true
  | some s =>
      pyStartswith s "image/" || pyStartswith s "application/octet-stream"

theorem chunkTotal_nil : chunkTotal [] = 0 := rfl

theorem chunkTotal_cons (c : List Nat) (rest : List (List Nat)) :
    chunkTotal (c :: rest) = c.length + chunkTotal rest := by
  simp [chunkTotal]

theorem chunkTotal_append (a b : List (List Nat)) :
    chunkTotal (a ++ b) = chunkTotal a + chunkTotal b := by
  simp [chunkTotal]

theorem joinBytes_length (L : List (List Nat)) :
    (joinBytes L).length = chunkTotal L := by
  induction L with
  | nil => rfl
  | cons c rest ih => simp [joinBytes, chunkTotal_cons, ih]

theorem joinBytes_nil_of_total_zero (L : List (List Nat))
    (h : chunkTotal L = 0) : joinBytes L = [] := by
  have := joinBytes_length L
  rw [h] at this
  exact List.eq_nil_of_length_eq_zero this

/-- If the whole stream fits under `maxFilesize`, the chunk loop consumes it
all and returns the summed size and the accumulated chunks. -/
theorem accumulateChunks_ok (maxF : Nat) (chunks : List (List Nat)) :
    ∀ (fs : Nat) (acc : List (List Nat)), fs + chunkTotal chunks ≤ maxF →
    accumulateChunks maxF chunks fs acc
      = .ok (fs + chunkTotal chunks, acc ++ chunks) := by
  induction chunks with
  | nil =>
      intro fs acc _
      simp [accumulateChunks, chunkTotal_nil]
  | cons c rest ih =>
      intro fs acc h
      rw [chunkTotal_cons] at h
      have hng : ¬ (fs + c.length > maxF) := by omega
      rw [accumulateChunks]
      simp only [if_neg hng]
      rw [ih (fs + c.length) (acc ++ [c]) (by omega)]
      rw [chunkTotal_cons]
      congr 1
      rw [Prod.mk.injEq]
      exact ⟨by omega, by simp⟩

/-- The chunk loop aborts with `FILE_SIZE_TOO_LARGE` at the first chunk that
pushes the running total past `maxFilesize`, whatever follows it. -/
theorem accumulateChunks_abort (maxF : Nat) (pre : List (List Nat)) :
    ∀ (c : List Nat) (rest : List (List Nat)) (fs : Nat)
      (acc : List (List Nat)),
    fs + chunkTotal pre ≤ maxF → maxF < fs + chunkTotal pre + c.length →
    accumulateChunks maxF (pre ++ c :: rest) fs acc
      = .error ⟨.FILE_SIZE_TOO_LARGE, none⟩ := by
  induction pre with
  | nil =>
      intro c rest fs acc h1 h2
      rw [chunkTotal_nil] at h1 h2
      rw [List.nil_append, accumulateChunks]
      have hg : fs + c.length > maxF := by omega
      simp only [if_pos hg]
  | cons p pre' ih =>
      intro c rest fs acc h1 h2
      rw [chunkTotal_cons] at h1 h2
      rw [List.cons_append, accumulateChunks]
      have hng : ¬ (fs + p.length > maxF) := by omega
      simp only [if_neg hng]
      exact ih c rest (fs + p.length) (acc ++ [p]) (by omega) (by omega)

/-- Inversion of a successful chunk loop: the returned size is the sum of the
chunk lengths, the chunks come back in order, and (unless the stream was
empty) the final size passed the last per-chunk check. -/
theorem accumulateChunks_ok_inv (maxF : Nat) (chunks : List (List Nat)) :
    ∀ (fs fsFinal : Nat) (acc accFinal : List (List Nat)),
    accumulateChunks maxF chunks fs acc = .ok (fsFinal, accFinal) →
    fsFinal = fs + chunkTotal chunks ∧ accFinal = acc ++ chunks ∧
      (chunks = [] ∨ fsFinal ≤ maxF) := by
  induction chunks with
  | nil =>
      intro fs fsFinal acc accFinal h
      rw [accumulateChunks] at h
      simp only [Except.ok.injEq, Prod.mk.injEq] at h
      exact ⟨by rw [chunkTotal_nil]; omega, by simp [h.2], Or.inl rfl⟩
  | cons c rest ih =>
      intro fs fsFinal acc accFinal h
      rw [accumulateChunks] at h
      by_cases hg : fs + c.length > maxF
      · simp only [if_pos hg] at h
        exact absurd h (by simp)
      · simp only [if_neg hg] at h
        obtain ⟨h1, h2, h3⟩ := ih _ _ _ _ h
        refine ⟨by rw [chunkTotal_cons]; omega, by simp [h2], Or.inr ?_⟩
        rcases h3 with h3 | h3
        · rw [h3, chunkTotal_nil] at h1; omega
        · exact h3

/-- Inversion of an aborted chunk loop: the only error it raises is
`FILE_SIZE_TOO_LARGE` with no detail string. -/
theorem accumulateChunks_error_inv (maxF : Nat) (chunks : List (List Nat)) :
    ∀ (fs : Nat) (acc : List (List Nat)) (e : DownloadError),
    accumulateChunks maxF chunks fs acc = .error e →
    e = ⟨.FILE_SIZE_TOO_LARGE, none⟩ := by
  induction chunks with
  | nil =>
      intro fs acc e h
      rw [accumulateChunks] at h
      exact absurd h (by simp)
  | cons c rest ih =>
      intro fs acc e h
      rw [accumulateChunks] at h
      by_cases hg : fs + c.length > maxF
      · simp only [if_pos hg, Except.error.injEq] at h
        exact h.symm
      · simp only [if_neg hg] at h
        exact ih _ _ _ h

/-- Body stage, success case: a stream whose total fits the envelope is
returned whole. -/
theorem bodyPhase_ok (minF maxF : Nat) (chunks : List (List Nat))
    (hmin : minF ≤ chunkTotal chunks) (hmax : chunkTotal chunks ≤ maxF) :
    bodyPhase minF maxF chunks = .ok (joinBytes chunks) := by
  unfold bodyPhase
  rw [accumulateChunks_ok maxF chunks 0 [] (by omega)]
  simp only [Nat.zero_add, List.nil_append]
  rw [if_neg (by omega)]

/-- Body stage, undersize case: a fully drained stream below the minimum
fails with `FILE_SIZE_TOO_SMALL`. -/
theorem bodyPhase_too_small (minF maxF : Nat) (chunks : List (List Nat))
    (hmax : chunkTotal chunks ≤ maxF) (hmin : chunkTotal chunks < minF) :
    bodyPhase minF maxF chunks
      = .error (.downloadError ⟨.FILE_SIZE_TOO_SMALL, none⟩) := by
  unfold bodyPhase
  rw [accumulateChunks_ok maxF chunks 0 [] (by omega)]
  simp only [Nat.zero_add, List.nil_append]
  rw [if_pos (by omega)]

/-- Body stage, oversize case: the stage aborts with `FILE_SIZE_TOO_LARGE`
at the first chunk that pushes the running total past the maximum. -/
theorem bodyPhase_too_large (minF maxF : Nat) (pre : List (List Nat))
    (c : List Nat) (rest : List (List Nat))
    (hpre : chunkTotal pre ≤ maxF) (hover : maxF < chunkTotal pre + c.length) :
    bodyPhase minF maxF (pre ++ c :: rest)
      = .error (.downloadError ⟨.FILE_SIZE_TOO_LARGE, none⟩) := by
  unfold bodyPhase
  rw [accumulateChunks_abort maxF pre c rest 0 [] (by omega) (by omega)]

/-- Inversion of a successful body stage. -/
theorem bodyPhase_ok_inv (minF maxF : Nat) (chunks : List (List Nat))
    (bytes : List Nat) (h : bodyPhase minF maxF chunks = .ok bytes) :
    bytes = joinBytes chunks ∧ minF ≤ chunkTotal chunks ∧
      chunkTotal chunks ≤ maxF ∧ bytes.length = chunkTotal chunks := by
  unfold bodyPhase at h
  split at h
  · exact absurd h (by simp)
  · rename_i fsFinal accFinal heq
    obtain ⟨h1, h2, h3⟩ :=
      accumulateChunks_ok_inv maxF chunks 0 fsFinal [] accFinal heq
    rw [Nat.zero_add] at h1
    rw [List.nil_append] at h2
    by_cases hlt : fsFinal < minF
    · rw [if_pos hlt] at h; exact absurd h (by simp)
    · rw [if_neg hlt] at h
      simp only [Except.ok.injEq] at h
      have hle : chunkTotal chunks ≤ maxF := by
        rcases h3 with h3 | h3
        · rw [h3, chunkTotal_nil]
          omega
        · omega
      refine ⟨by rw [← h, h2], by omega, hle, ?_⟩
      rw [← h, h2, joinBytes_length]

/-- Inversion of a failed body stage: the only errors are the two size
verdicts, with no detail string. -/
theorem bodyPhase_error_inv (minF maxF : Nat) (chunks : List (List Nat))
    (e : PyError) (h : bodyPhase minF maxF chunks = .error e) :
    e = .downloadError ⟨.FILE_SIZE_TOO_LARGE, none⟩ ∨
      e = .downloadError ⟨.FILE_SIZE_TOO_SMALL, none⟩ := by
  unfold bodyPhase at h
  split at h
  · rename_i d heq
    simp only [Except.error.injEq] at h
    left
    rw [← h, accumulateChunks_error_inv maxF chunks 0 [] d heq]
  · rename_i fsFinal accFinal heq
    by_cases hlt : fsFinal < minF
    · rw [if_pos hlt] at h
      simp only [Except.error.injEq] at h
      right
      exact h.symm
    · rw [if_neg hlt] at h
      exact absurd h (by simp)

/-- Inversion of a passing `Content-Length` pre-check on a present header:
the header parses and the parsed value is inside the envelope. -/
theorem passesLengthCheck_some_inv (minF maxF : Nat) (s : String)
    (h : passesLengthCheck minF maxF (some s) = true) :
    ∃ n, pyInt s = some n ∧ ¬ n > (maxF : Int) ∧ ¬ n < (minF : Int) := by
  simp only [passesLengthCheck] at h
  split at h
  · exact absurd h (by simp)
  · rename_i n hp
    simp only [Bool.and_eq_true, Bool.not_eq_true',
      decide_eq_false_iff_not] at h
    exact ⟨n, hp, h.1, h.2⟩

/-- When the `Content-Length` pre-checks pass, the outcome of the shared
header-plus-body pipeline is exactly the body stage's outcome. -/
theorem contentLengthPhase_pass (minF maxF : Nat) (resp : HttpResponse)
    (h : passesLengthCheck minF maxF resp.contentLength = true) :
    (contentLengthPhase minF maxF resp).fst
      = bodyPhase minF maxF resp.chunks := by
  unfold contentLengthPhase
  split
  · rfl
  · rename_i s hcl
    rw [hcl] at h
    obtain ⟨n, hp, h1, h2⟩ := passesLengthCheck_some_inv minF maxF s h
    split
    · rename_i hp2
      rw [hp2] at hp
      exact absurd hp (by simp)
    · rename_i m hp2
      rw [hp2] at hp
      simp only [Option.some.injEq] at hp
      subst hp
      rw [if_neg h1, if_neg h2]

/-- Inversion of a successful run of the shared pipeline: success can only
come from the body stage. -/
theorem contentLengthPhase_ok_inv (minF maxF : Nat) (resp : HttpResponse)
    (bytes : List Nat)
    (h : (contentLengthPhase minF maxF resp).fst = .ok bytes) :
    bodyPhase minF maxF resp.chunks = .ok bytes := by
  unfold contentLengthPhase at h
  split at h
  · exact h
  · split at h
    · exact absurd h (by simp)
    · rename_i n hp
      by_cases h1 : n > (maxF : Int)
      · rw [if_pos h1] at h; exact absurd h (by simp)
      · rw [if_neg h1] at h
        by_cases h2 : n < (minF : Int)
        · rw [if_pos h2] at h; exact absurd h (by simp)
        · rw [if_neg h2] at h; exact h

/-- Inversion of a failed run of the shared pipeline: either the malformed
`Content-Length` `ValueError`, or one of the two size verdicts. -/
theorem contentLengthPhase_error_inv (minF maxF : Nat) (resp : HttpResponse)
    (e : PyError)
    (h : (contentLengthPhase minF maxF resp).fst = .error e) :
    (e = .valueError ∧ ∃ s, resp.contentLength = some s ∧ pyInt s = none) ∨
      e = .downloadError ⟨.FILE_SIZE_TOO_LARGE, none⟩ ∨
      e = .downloadError ⟨.FILE_SIZE_TOO_SMALL, none⟩ := by
  unfold contentLengthPhase at h
  split at h
  · exact Or.inr (bodyPhase_error_inv minF maxF resp.chunks e h)
  · rename_i s hcl
    split at h
    · rename_i hp
      simp only [Except.error.injEq] at h
      exact Or.inl ⟨h.symm, s, hcl, hp⟩
    · rename_i n hp
      by_cases h1 : n > (maxF : Int)
      · rw [if_pos h1] at h
        simp only [Except.error.injEq] at h
        exact Or.inr (Or.inl h.symm)
      · rw [if_neg h1] at h
        by_cases h2 : n < (minF : Int)
        · rw [if_pos h2] at h
          simp only [Except.error.injEq] at h
          exact Or.inr (Or.inr h.symm)
        · rw [if_neg h2] at h
          exact Or.inr (bodyPhase_error_inv minF maxF resp.chunks e h)

/-- When the `Content-Type` check passes, `download_image` produces the same
outcome value as `download_file`. -/
theorem downloadImage_pass (minF maxF : Nat) (resp : HttpResponse)
    (h : passesImageTypeCheck resp.contentType = true) :
    (downloadImage minF maxF resp).fst = (downloadFile minF maxF resp).fst := by
  unfold passesImageTypeCheck at h
  unfold downloadImage downloadFile
  split
  · rfl
  · rename_i ct hct
    rw [hct] at h
    rw [if_pos h]

/-- A successful `download_image` outcome is a successful `download_file`
outcome: the extra check can only reject. -/
theorem downloadImage_ok_inv (minF maxF : Nat) (resp : HttpResponse)
    (bytes : List Nat)
    (h : (downloadImage minF maxF resp).fst = .ok bytes) :
    (downloadFile minF maxF resp).fst = .ok bytes := by
  unfold downloadImage at h
  unfold downloadFile
  split at h
  · exact h
  · rename_i ct hct
    by_cases hok : (pyStartswith ct "image/"
        || pyStartswith ct "application/octet-stream") = true
    · rw [if_pos hok] at h; exact h
    · rw [if_neg hok] at h; exact absurd h (by simp)

/-- An error from `download_image` is either `URL_IS_NOT_IMAGE` or an error
of the shared pipeline. -/
theorem downloadImage_error_inv (minF maxF : Nat) (resp : HttpResponse)
    (e : PyError)
    (h : (downloadImage minF maxF resp).fst = .error e) :
    e = .downloadError ⟨.URL_IS_NOT_IMAGE, none⟩ ∨
      (contentLengthPhase minF maxF resp).fst = .error e := by
  unfold downloadImage at h
  split at h
  · exact Or.inr h
  · rename_i ct hct
    by_cases hok : (pyStartswith ct "image/"
        || pyStartswith ct "application/octet-stream") = true
    · rw [if_pos hok] at h; exact Or.inr h
    · rw [if_neg hok] at h
      simp only [Except.error.injEq] at h
      exact Or.inl h.symm

/-- Computation of the shared pipeline on a present, parsed
`Content-Length` header: the two pre-checks in source order, then the body
stage. -/
theorem contentLengthPhase_some (minF maxF : Nat) (resp : HttpResponse)
    (s : String) (n : Int)
    (hcl : resp.contentLength = some s) (hp : pyInt s = some n) :
    contentLengthPhase minF maxF resp =
      if n > (maxF : Int) then
        (.error (.downloadError ⟨.FILE_SIZE_TOO_LARGE, none⟩), [])
      else if n < (minF : Int) then
        (.error (.downloadError ⟨.FILE_SIZE_TOO_SMALL, none⟩), [])
      else (bodyPhase minF maxF resp.chunks, []) := by
  unfold contentLengthPhase
  split
  · rename_i hnone
    rw [hcl] at hnone
    exact absurd hnone (by simp)
  · rename_i s2 hsome
    rw [hcl] at hsome
    simp only [Option.some.injEq] at hsome
    subst hsome
    split
    · rename_i hp2
      rw [hp2] at hp
      exact absurd hp (by simp)
    · rename_i m hp2
      rw [hp2] at hp
      simp only [Option.some.injEq] at hp
      subst hp
      rfl

/-- C1: in every call to `download_file` or `download_image` that reaches
the body, when the running byte total first exceeds `max_filesize` the call
aborts at that very chunk with `FileSizeTooLarge`; the outcome does not
depend on anything streamed after that chunk, and the accumulated byte
count exceeds `max_filesize` by at most the length of the overflowing
chunk. -/
theorem C1_chunk_level_abort (minF maxF : Nat) (resp : HttpResponse)
    (pre : List (List Nat)) (c : List Nat) (rest restOther : List (List Nat))
    (hchunks : resp.chunks = pre ++ c :: rest)
    (hlen : passesLengthCheck minF maxF resp.contentLength = true)
    (hct : passesImageTypeCheck resp.contentType = true)
    (hpre : chunkTotal pre ≤ maxF)
    (hover : maxF < chunkTotal pre + c.length) :
    (downloadFile minF maxF resp).fst
        = .error (.downloadError ⟨.FILE_SIZE_TOO_LARGE, none⟩)
    ∧ (downloadImage minF maxF resp).fst
        = .error (.downloadError ⟨.FILE_SIZE_TOO_LARGE, none⟩)
    ∧ (downloadFile minF maxF
          { resp with chunks := pre ++ c :: restOther }).fst
        = (downloadFile minF maxF resp).fst
    ∧ chunkTotal (pre ++ [c]) ≤ maxF + c.length := by
  have hbody : ∀ tail : List (List Nat),
      bodyPhase minF maxF (pre ++ c :: tail)
        = .error (.downloadError ⟨.FILE_SIZE_TOO_LARGE, none⟩) :=
    fun tail => bodyPhase_too_large minF maxF pre c tail hpre hover
  have hfile : (downloadFile minF maxF resp).fst
      = .error (.downloadError ⟨.FILE_SIZE_TOO_LARGE, none⟩) := by
    unfold downloadFile
    rw [contentLengthPhase_pass minF maxF resp hlen, hchunks]
    exact hbody rest
  refine ⟨hfile, ?_, ?_, ?_⟩
  · rw [downloadImage_pass minF maxF resp hct]
    exact hfile
  · rw [hfile]
    unfold downloadFile
    rw [contentLengthPhase_pass minF maxF
      { resp with chunks := pre ++ c :: restOther } hlen]
    exact hbody restOther
  · rw [chunkTotal_append, chunkTotal_cons, chunkTotal_nil]
    omega

/-- Witness for C1: bounds 0–5, chunks of sizes 3, 3, 1; the second chunk
pushes the total to 6 and the call aborts there. -/
theorem C1_witness :
    (downloadFile 0 5 ⟨none, none, [[1, 2, 3], [4, 5, 6], [7]]⟩).fst
      = .error (.downloadError ⟨.FILE_SIZE_TOO_LARGE, none⟩) :=
  (C1_chunk_level_abort 0 5 ⟨none, none, [[1, 2, 3], [4, 5, 6], [7]]⟩
    [[1, 2, 3]] [4, 5, 6] [[7]] [] rfl rfl rfl (by decide) (by decide)).1

/-- C2: whenever either function returns successfully, the returned
buffer's length lies in the inclusive envelope
`[min_filesize, max_filesize]`. -/
theorem C2_success_within_envelope (minF maxF : Nat) (resp : HttpResponse) :
    (∀ bytes : List Nat, (downloadFile minF maxF resp).fst = .ok bytes →
      minF ≤ bytes.length ∧ bytes.length ≤ maxF)
    ∧ (∀ bytes : List Nat, (downloadImage minF maxF resp).fst = .ok bytes →
      minF ≤ bytes.length ∧ bytes.length ≤ maxF) := by
  have hfile : ∀ bytes : List Nat,
      (downloadFile minF maxF resp).fst = .ok bytes →
      minF ≤ bytes.length ∧ bytes.length ≤ maxF := by
    intro bytes h
    have hb := contentLengthPhase_ok_inv minF maxF resp bytes h
    obtain ⟨_, hmin, hmax, hlen⟩ :=
      bodyPhase_ok_inv minF maxF resp.chunks bytes hb
    omega
  exact ⟨hfile, fun bytes h =>
    hfile bytes (downloadImage_ok_inv minF maxF resp bytes h)⟩

/-- Witness for C2: a declared length of 3 and a 3-byte body with bounds
0–1000 succeed, and 3 is inside the envelope. -/
theorem C2_witness :
    0 ≤ ([1, 2, 3] : List Nat).length ∧ ([1, 2, 3] : List Nat).length ≤ 1000 :=
  (C2_success_within_envelope 0 1000 ⟨none, some "3", [[1, 2, 3]]⟩).1
    [1, 2, 3] rfl

/-- C3: with valid bounds and a present, parsed `Content-Length`, a value
above the maximum fails with `FileSizeTooLarge` and a value below the
minimum fails with `FileSizeTooSmall`, in both cases whatever the body
holds — no chunk is ever consulted. -/
theorem C3_declared_length_prechecks (minF maxF : Nat) (resp : HttpResponse)
    (s : String) (n : Int) (hbounds : minF ≤ maxF)
    (hcl : resp.contentLength = some s) (hp : pyInt s = some n)
    (hct : passesImageTypeCheck resp.contentType = true) :
    ((maxF : Int) < n →
      ∀ body : List (List Nat),
        (downloadFile minF maxF { resp with chunks := body }).fst
            = .error (.downloadError ⟨.FILE_SIZE_TOO_LARGE, none⟩)
        ∧ (downloadImage minF maxF { resp with chunks := body }).fst
            = .error (.downloadError ⟨.FILE_SIZE_TOO_LARGE, none⟩))
    ∧ (n < (minF : Int) →
      ∀ body : List (List Nat),
        (downloadFile minF maxF { resp with chunks := body }).fst
            = .error (.downloadError ⟨.FILE_SIZE_TOO_SMALL, none⟩)
        ∧ (downloadImage minF maxF { resp with chunks := body }).fst
            = .error (.downloadError ⟨.FILE_SIZE_TOO_SMALL, none⟩)) := by
  constructor
  · intro hgt body
    have heq := contentLengthPhase_some minF maxF
      { resp with chunks := body } s n hcl hp
    rw [if_pos hgt] at heq
    have hfile : (downloadFile minF maxF { resp with chunks := body }).fst
        = .error (.downloadError ⟨.FILE_SIZE_TOO_LARGE, none⟩) := by
      unfold downloadFile
      rw [heq]
    refine ⟨hfile, ?_⟩
    rw [downloadImage_pass minF maxF { resp with chunks := body } hct]
    exact hfile
  · intro hlt body
    have heq := contentLengthPhase_some minF maxF
      { resp with chunks := body } s n hcl hp
    rw [if_neg (by omega), if_pos hlt] at heq
    have hfile : (downloadFile minF maxF { resp with chunks := body }).fst
        = .error (.downloadError ⟨.FILE_SIZE_TOO_SMALL, none⟩) := by
      unfold downloadFile
      rw [heq]
    refine ⟨hfile, ?_⟩
    rw [downloadImage_pass minF maxF { resp with chunks := body } hct]
    exact hfile

/-- Witness for C3: declared `Content-Length: 2000` against bounds 0–1000
fails with `FileSizeTooLarge` whatever the body is. -/
theorem C3_witness :
    (downloadFile 0 1000 ⟨none, some "2000", [[1]]⟩).fst
      = .error (.downloadError ⟨.FILE_SIZE_TOO_LARGE, none⟩) :=
  (((C3_declared_length_prechecks 0 1000 ⟨none, some "2000", [[1]]⟩
      "2000" 2000 (by decide) rfl rfl rfl).1 (by decide)) [[1]]).1

/-- C4: when the header pre-checks pass and the streamed total is inside
the envelope, the call succeeds with exactly the concatenation of the
chunks in arrival order; the final outcome is decided by the observed total
alone — any declared `Content-Length` passing the pre-checks, however wrong
about the actual size, yields the same success. -/
theorem C4_success_roundtrip (minF maxF : Nat) (resp : HttpResponse)
    (hlen : passesLengthCheck minF maxF resp.contentLength = true)
    (hmin : minF ≤ chunkTotal resp.chunks)
    (hmax : chunkTotal resp.chunks ≤ maxF) :
    (downloadFile minF maxF resp).fst = .ok (joinBytes resp.chunks)
    ∧ (joinBytes resp.chunks).length = chunkTotal resp.chunks
    ∧ (passesImageTypeCheck resp.contentType = true →
        (downloadImage minF maxF resp).fst = .ok (joinBytes resp.chunks))
    ∧ ∀ declared : Option String,
        passesLengthCheck minF maxF declared = true →
        (downloadFile minF maxF { resp with contentLength := declared }).fst
          = .ok (joinBytes resp.chunks) := by
  have hbody := bodyPhase_ok minF maxF resp.chunks hmin hmax
  have hfile : (downloadFile minF maxF resp).fst
      = .ok (joinBytes resp.chunks) := by
    unfold downloadFile
    rw [contentLengthPhase_pass minF maxF resp hlen, hbody]
  refine ⟨hfile, joinBytes_length resp.chunks, ?_, ?_⟩
  · intro hct
    rw [downloadImage_pass minF maxF resp hct]
    exact hfile
  · intro declared hdecl
    unfold downloadFile
    rw [contentLengthPhase_pass minF maxF
      { resp with contentLength := declared } hdecl]
    exact hbody

/-- Witness for C4: a 3-byte stream in two chunks under bounds 0–1000 comes
back as the concatenation `[1, 2, 3]`. -/
theorem C4_witness :
    (downloadFile 0 1000 ⟨none, none, [[1, 2], [3]]⟩).fst = .ok [1, 2, 3] :=
  (C4_success_roundtrip 0 1000 ⟨none, none, [[1, 2], [3]]⟩ rfl
    (by decide) (by decide)).1

/-- C5: once the stream is exhausted with no chunk-level abort, a final
total below `min_filesize` fails with `FileSizeTooSmall`; a zero-byte body
falls under this failure exactly when `min_filesize > 0`, and with
`min_filesize = 0` a zero-byte body is accepted and the empty buffer
returned. -/
theorem C5_final_minimum_check (minF maxF : Nat) (resp : HttpResponse)
    (hlen : passesLengthCheck minF maxF resp.contentLength = true)
    (hmax : chunkTotal resp.chunks ≤ maxF) :
    (chunkTotal resp.chunks < minF →
      (downloadFile minF maxF resp).fst
          = .error (.downloadError ⟨.FILE_SIZE_TOO_SMALL, none⟩)
      ∧ (passesImageTypeCheck resp.contentType = true →
          (downloadImage minF maxF resp).fst
            = .error (.downloadError ⟨.FILE_SIZE_TOO_SMALL, none⟩)))
    ∧ (chunkTotal resp.chunks = 0 → 0 < minF →
        (downloadFile minF maxF resp).fst
          = .error (.downloadError ⟨.FILE_SIZE_TOO_SMALL, none⟩))
    ∧ (chunkTotal resp.chunks = 0 → minF = 0 →
        (downloadFile minF maxF resp).fst = .ok []) := by
  have hpass := contentLengthPhase_pass minF maxF resp hlen
  refine ⟨fun hlt => ?_, fun hz hpos => ?_, fun hz hzero => ?_⟩
  · have hsmall := bodyPhase_too_small minF maxF resp.chunks hmax hlt
    have hfile : (downloadFile minF maxF resp).fst
        = .error (.downloadError ⟨.FILE_SIZE_TOO_SMALL, none⟩) := by
      unfold downloadFile
      rw [hpass, hsmall]
    refine ⟨hfile, fun hct => ?_⟩
    rw [downloadImage_pass minF maxF resp hct]
    exact hfile
  · have hsmall := bodyPhase_too_small minF maxF resp.chunks hmax (by omega)
    unfold downloadFile
    rw [hpass, hsmall]
  · have hok := bodyPhase_ok minF maxF resp.chunks (by omega) hmax
    unfold downloadFile
    rw [hpass, hok, joinBytes_nil_of_total_zero resp.chunks hz]

/-- Witness for C5: bounds 100–1000 with a 50-byte body fail with
`FileSizeTooSmall` after the stream is drained. -/
theorem C5_witness :
    (downloadFile 100 1000 ⟨none, none, [List.replicate 50 7]⟩).fst
      = .error (.downloadError ⟨.FILE_SIZE_TOO_SMALL, none⟩) :=
  ((C5_final_minimum_check 100 1000 ⟨none, none, [List.replicate 50 7]⟩ rfl
      (by decide)).1 (by decide)).1

/-- C6: the `Content-Type` gate of `download_image`: a present header with
neither accepted prefix fails with `UrlIsNotImage` before the
`Content-Length` check and before any body read; a header with an accepted
prefix proceeds to the shared stages; an absent header proceeds, adding
only the non-fatal warning. -/
theorem C6_content_type_gate (minF maxF : Nat) :
    (∀ ct : String, pyStartswith ct "image/" = false →
      pyStartswith ct "application/octet-stream" = false →
      ∀ (declared : Option String) (body : List (List Nat)),
        downloadImage minF maxF ⟨some ct, declared, body⟩
          = (.error (.downloadError ⟨.URL_IS_NOT_IMAGE, none⟩), []))
    ∧ (∀ (ct : String) (resp : HttpResponse), resp.contentType = some ct →
        pyStartswith ct "image/" = true →
        downloadImage minF maxF resp = downloadFile minF maxF resp)
    ∧ (∀ resp : HttpResponse, resp.contentType = none →
        (downloadImage minF maxF resp).fst = (downloadFile minF maxF resp).fst
        ∧ (downloadImage minF maxF resp).snd
            = "No Content-Type!" :: (downloadFile minF maxF resp).snd) := by
  refine ⟨?_, ?_, ?_⟩
  · intro ct h1 h2 declared body
    simp [downloadImage, h1, h2]
  · intro ct resp hct hstart
    unfold downloadImage downloadFile
    split
    · rename_i hnone
      rw [hct] at hnone
      exact absurd hnone (by simp)
    · rename_i ct2 hsome
      rw [hct] at hsome
      simp only [Option.some.injEq] at hsome
      subst hsome
      rw [if_pos (by simp [hstart])]
  · intro resp hnone
    unfold downloadImage downloadFile
    split
    · exact ⟨rfl, rfl⟩
    · rename_i ct2 hsome
      rw [hnone] at hsome
      exact absurd hsome (by simp)

/-- Witness for C6: header `text/html` is rejected with `UrlIsNotImage`,
with no warning emitted, whatever the declared length and body are. -/
theorem C6_witness :
    downloadImage 0 1000 ⟨some "text/html", some "2000", [[1]]⟩
      = (.error (.downloadError ⟨.URL_IS_NOT_IMAGE, none⟩), []) :=
  (C6_content_type_gate 0 1000).1 "text/html" (by decide) (by decide)
    (some "2000") [[1]]

/-- C7: for every response whose `Content-Type` is absent or starts with
`image/` or `application/octet-stream`, `download_image` and
`download_file` with the same arguments produce identical outcomes. -/
theorem C7_image_refines_file (minF maxF : Nat) (resp : HttpResponse)
    (hct : passesImageTypeCheck resp.contentType = true) :
    (downloadImage minF maxF resp).fst = (downloadFile minF maxF resp).fst :=
  downloadImage_pass minF maxF resp hct

/-- Witness for C7 at `image/png`. -/
theorem C7_witness :
    (downloadImage 0 1000 ⟨some "image/png", none, [[9]]⟩).fst
      = (downloadFile 0 1000 ⟨some "image/png", none, [[9]]⟩).fst :=
  C7_image_refines_file 0 1000 ⟨some "image/png", none, [[9]]⟩ (by decide)

/-- C8 counterexample: with `Content-Length: abc` the builtin `int(...)`
raises a bare `ValueError`, which is not a classified `DownloadError` of
any advertised kind, so not every non-transport failure is classified. -/
theorem C8_counterexample :
    (downloadFile 0 100 ⟨none, some "abc", []⟩).fst = .error .valueError
    ∧ PyError.valueError
        ≠ .downloadError ⟨.FILE_SIZE_TOO_LARGE, none⟩
    ∧ PyError.valueError
        ≠ .downloadError ⟨.FILE_SIZE_TOO_SMALL, none⟩
    ∧ PyError.valueError
        ≠ .downloadError ⟨.URL_IS_NOT_IMAGE, none⟩ :=
  ⟨rfl, by decide, by decide, by decide⟩

/-- C8 amended: whenever the `Content-Length` header is absent or parses as
an integer, every error either function raises is a classified
`DownloadError` of kind `FILE_SIZE_TOO_LARGE`, `FILE_SIZE_TOO_SMALL` or
`URL_IS_NOT_IMAGE` — never `FILE_SIZE_IS_ZERO` — with no detail string and
its message equal to the stable status message. -/
theorem C8_classified_errors (minF maxF : Nat) (resp : HttpResponse)
    (hparse : resp.contentLength = none ∨
      ∃ s n, resp.contentLength = some s ∧ pyInt s = some n) :
    ∀ e : PyError,
      ((downloadFile minF maxF resp).fst = .error e ∨
        (downloadImage minF maxF resp).fst = .error e) →
      ∃ d : DownloadError, e = .downloadError d ∧ d.extra = none ∧
        d.message = d.status.message ∧
        (d.status = .FILE_SIZE_TOO_LARGE ∨ d.status = .FILE_SIZE_TOO_SMALL ∨
          d.status = .URL_IS_NOT_IMAGE) := by
  intro e he
  have hphase : (contentLengthPhase minF maxF resp).fst = .error e →
      ∃ d : DownloadError, e = .downloadError d ∧ d.extra = none ∧
        d.message = d.status.message ∧
        (d.status = .FILE_SIZE_TOO_LARGE ∨ d.status = .FILE_SIZE_TOO_SMALL ∨
          d.status = .URL_IS_NOT_IMAGE) := by
    intro h
    rcases contentLengthPhase_error_inv minF maxF resp e h with
      ⟨_, s, hs, hpn⟩ | he1 | he2
    · rcases hparse with hnone | ⟨s2, n, hs2, hp2⟩
      · rw [hnone] at hs
        exact absurd hs (by simp)
      · rw [hs2] at hs
        simp only [Option.some.injEq] at hs
        subst hs
        rw [hp2] at hpn
        exact absurd hpn (by simp)
    · exact ⟨⟨.FILE_SIZE_TOO_LARGE, none⟩, he1, rfl, rfl, Or.inl rfl⟩
    · exact ⟨⟨.FILE_SIZE_TOO_SMALL, none⟩, he2, rfl, rfl,
        Or.inr (Or.inl rfl)⟩
  rcases he with hf | hi
  · exact hphase hf
  · rcases downloadImage_error_inv minF maxF resp e hi with hurl | hrest
    · exact ⟨⟨.URL_IS_NOT_IMAGE, none⟩, hurl, rfl, rfl, Or.inr (Or.inr rfl)⟩
    · exact hphase hrest

/-- Witness for C8 (amended): a declared length of 5 against bounds
10–1000 produces a classified `FILE_SIZE_TOO_SMALL` error. -/
theorem C8_witness :
    ∃ d : DownloadError,
      (PyError.downloadError ⟨.FILE_SIZE_TOO_SMALL, none⟩ : PyError)
        = .downloadError d ∧ d.extra = none ∧
        d.message = d.status.message ∧
        (d.status = .FILE_SIZE_TOO_LARGE ∨ d.status = .FILE_SIZE_TOO_SMALL ∨
          d.status = .URL_IS_NOT_IMAGE) :=
  C8_classified_errors 10 1000 ⟨some "text/html", some "5", []⟩
    (Or.inr ⟨"5", 5, rfl, rfl⟩)
    (.downloadError ⟨.FILE_SIZE_TOO_SMALL, none⟩) (Or.inl rfl)

/-- C10: neither function validates `min_filesize ≤ max_filesize`; with
inverted bounds no response can succeed: any declared parsed length trips
one of the two pre-checks, and any streamed total is above the maximum or
below the minimum. -/
theorem C10_inverted_bounds_never_succeed (minF maxF : Nat)
    (resp : HttpResponse) (hinv : maxF < minF) :
    (∀ bytes : List Nat, (downloadFile minF maxF resp).fst ≠ .ok bytes)
    ∧ (∀ bytes : List Nat, (downloadImage minF maxF resp).fst ≠ .ok bytes)
    ∧ (∀ (s : String) (n : Int), resp.contentLength = some s →
        pyInt s = some n →
        (downloadFile minF maxF resp).fst
            = .error (.downloadError ⟨.FILE_SIZE_TOO_LARGE, none⟩)
          ∨ (downloadFile minF maxF resp).fst
            = .error (.downloadError ⟨.FILE_SIZE_TOO_SMALL, none⟩))
    ∧ (maxF < chunkTotal resp.chunks ∨ chunkTotal resp.chunks < minF) := by
  have hfile : ∀ bytes : List Nat,
      (downloadFile minF maxF resp).fst ≠ .ok bytes := by
    intro bytes h
    have hb := contentLengthPhase_ok_inv minF maxF resp bytes h
    obtain ⟨_, hmin, hmax, _⟩ :=
      bodyPhase_ok_inv minF maxF resp.chunks bytes hb
    omega
  refine ⟨hfile, ?_, ?_, by omega⟩
  · intro bytes h
    exact hfile bytes (downloadImage_ok_inv minF maxF resp bytes h)
  · intro s n hcl hp
    have heq := contentLengthPhase_some minF maxF resp s n hcl hp
    by_cases hgt : n > (maxF : Int)
    · left
      unfold downloadFile
      rw [heq, if_pos hgt]
    · right
      unfold downloadFile
      rw [heq, if_neg hgt, if_pos (by omega)]

/-- Witness for C10: bounds 10–5 with declared length 7 fail with one of
the two size pre-checks. -/
theorem C10_witness :
    (downloadFile 10 5 ⟨none, some "7", [[1]]⟩).fst
        = .error (.downloadError ⟨.FILE_SIZE_TOO_LARGE, none⟩)
      ∨ (downloadFile 10 5 ⟨none, some "7", [[1]]⟩).fst
        = .error (.downloadError ⟨.FILE_SIZE_TOO_SMALL, none⟩) :=
  (C10_inverted_bounds_never_succeed 10 5 ⟨none, some "7", [[1]]⟩
    (by decide)).2.2.1 "7" 7 rfl rfl

end Khandy
